import Mathlib

/-!
Shallow embedding of `src/equity_forward_ipv.py` (equity forward IPV check:
cost-of-carry forward vs put-call parity forward, with PASS/FAIL verdict and
root-cause hints).

Python floats are modelled as real numbers; `math.exp` and `math.log` become
`Real.exp` and `Real.log`.  Python's `round(v, nd)` (round to `nd` decimal
digits) is modelled as rounding `v * 10^nd` to the nearest integer; Python
resolves exact ties to the even digit while `round` here resolves them upward,
a difference visible only on an exact tie, which no claim exercises.
`validate_inputs` raises `ValueError` in Python; it is embedded as
`Except String Unit`, and `run_ipv_check`, which calls it, as
`Except String IPVReport`.
-/

namespace EquityForwardIpv

noncomputable section

open Real Classical

/-- `EquityForwardIPVInputs` dataclass (src lines 11-19): spot `S0`, discount
rate `r`, `net_carry` (dividend yield minus repo/borrow), year fraction `T`,
strike `K`, optional call and put prices. -/
structure EquityForwardIPVInputs where
  spot : ℝ
  r : ℝ
  net_carry : ℝ
  T : ℝ
  strike : ℝ
  call : Option ℝ
  put : Option ℝ

/-- Python's `round(v, nd)`: round `v` to `nd` decimal digits (see the module
comment for the tie-breaking caveat). -/
def round_to (nd : ℕ) (v : ℝ) : ℝ :=
  ((round (v * 10 ^ nd) : ℤ) : ℝ) / 10 ^ nd

/-- `validate_inputs` (src lines 25-37): rejects non-positive spot, strike or
maturity, a negative supplied call or put, and exactly one of call/put
supplied; succeeds (with no other effect) otherwise. -/
def validate_inputs (x : EquityForwardIPVInputs) : Except String Unit :=
  if x.spot ≤ 0 then Except.error "spot must be > 0"
  else if x.strike ≤ 0 then Except.error "strike must be > 0"
  else if x.T ≤ 0 then Except.error "T must be > 0"
  else if ∃ c, x.call = some c ∧ c < 0 then Except.error "call must be >= 0"
  else if ∃ p, x.put = some p ∧ p < 0 then Except.error "put must be >= 0"
  else if x.call.isNone ^^ x.put.isNone then
    Except.error "provide both call and put (same K,T), or neither"
  else Except.ok ()

/-- `forward_carry` (src lines 43-45): baseline `F = S0 * exp((r - net_carry) * T)`. -/
def forward_carry (spot r net_carry T : ℝ) : ℝ :=
  spot * Real.exp ((r - net_carry) * T)

/-- `forward_from_put_call_parity` (src lines 48-50): market-implied
`F = K + exp(r*T) * (C - P)`. -/
def forward_from_put_call_parity (K C P r T : ℝ) : ℝ :=
  K + Real.exp (r * T) * (C - P)

/-- `implied_net_carry` (src lines 53-60): solve `forward_carry(S0,r,q,T) = F_target`
for `q`; `none` when `spot ≤ 0`, `T ≤ 0` or `F_target ≤ 0`. -/
def implied_net_carry (spot F_target r T : ℝ) : Option ℝ :=
  if spot ≤ 0 ∨ T ≤ 0 ∨ F_target ≤ 0 then none
  else some (r - Real.log (F_target / spot) / T)

/-- Nested `tolerances` dict of the report (src lines 95-100). -/
structure IPVTolerances where
  tol_abs : ℝ
  tol_bps : ℝ
  tol_eff : Option ℝ
  tol_q_gap_bps : ℝ

/-- Nested `assumptions` dict of the report (src lines 102-105). -/
structure IPVAssumptions where
  compounding : String
  net_carry : String

/-- The report dict built by `run_ipv_check` (src lines 81-106 and 148-165).
Fields that stay `None` in the no-options report are `Option`s. -/
structure IPVReport where
  status : String
  pass_rule : String
  baseline_forward : ℝ
  market_implied_forward : Option ℝ
  abs_spread : Option ℝ
  rel_spread_bps_vs_fbase : Option ℝ
  rel_spread_bps_vs_spot : Option ℝ
  net_carry_input : ℝ
  net_carry_input_pct : ℝ
  net_carry_implied : Option ℝ
  net_carry_implied_pct : Option ℝ
  net_carry_gap_bps : Option ℝ
  pass_eff : Option Bool
  tolerances : IPVTolerances
  root_cause_hints : List String
  assumptions : IPVAssumptions

/-- `run_ipv_check` (src lines 66-167).  Python raises `ValueError` out of
`validate_inputs`; embedded as the `Except.error` branch.  The Python defaults
are `tol_abs=0.20`, `tol_bps=5.0`, `tol_q_gap_bps=50.0`, `rounding=6`; here the
arguments are always passed explicitly.  If `x.call` is present but `x.put` is
absent the Python body would raise `TypeError` inside
`forward_from_put_call_parity`; that (unreachable after validation) branch is
the second `Except.error`. -/
def run_ipv_check (x : EquityForwardIPVInputs)
    (tol_abs tol_bps tol_q_gap_bps : ℝ) (rounding : ℕ) :
    Except String IPVReport :=
  match validate_inputs x with
  | Except.error e => Except.error e
  | Except.ok _ =>
    let f_baseline := forward_carry x.spot x.r x.net_carry x.T
    let base : IPVReport :=
      { status := "N/A (no options provided)"
        pass_rule := "|ΔF| <= tol_eff (tol_eff = max(tol_abs, tol_bps * F_carry / 10000))"
        baseline_forward := round_to rounding f_baseline
        market_implied_forward := none
        abs_spread := none
        rel_spread_bps_vs_fbase := none
        rel_spread_bps_vs_spot := none
        net_carry_input := x.net_carry
        net_carry_input_pct := round_to 3 (x.net_carry * 100)
        net_carry_implied := none
        net_carry_implied_pct := none
        net_carry_gap_bps := none
        pass_eff := none
        tolerances :=
          { tol_abs := tol_abs
            tol_bps := tol_bps
            tol_eff := none
            tol_q_gap_bps := tol_q_gap_bps }
        root_cause_hints := []
        assumptions :=
          { compounding := "continuous"
            net_carry := "dividend_yield - repo/borrow" } }
    match x.call with
    | none => Except.ok base
    | some c =>
      match x.put with
      | none => Except.error "TypeError: put is None"
      | some p =>
        let f_mkt := forward_from_put_call_parity x.strike c p x.r x.T
        let abs_spread := f_mkt - f_baseline
        let rel_bps_fbase := abs_spread / f_baseline * 10000
        let rel_bps_spot := abs_spread / x.spot * 10000
        let tol_eff := max tol_abs (|tol_bps| * f_baseline / 10000)
        let pass_eff : Bool := decide (|abs_spread| ≤ tol_eff)
        let status := if pass_eff then "PASS" else "FAIL"
        let q_impl := implied_net_carry x.spot f_mkt x.r x.T
        let q_gap_bps := Option.map (fun q => (q - x.net_carry) * 10000) q_impl
        let hints : List String :=
          if status = "FAIL" then
            [ "Timestamp alignment (spot vs options).",
              "Conventions (T, day count, compounding, curve)." ]
            ++ [ if abs_spread < 0 then
                  "Market-implied forward LOWER: check higher dividends / higher borrow-repo / stale spot."
                else
                  "Market-implied forward HIGHER: check lower dividends / lower borrow-repo / stale options." ]
            ++ (match q_gap_bps with
                | some g =>
                  if |g| ≥ tol_q_gap_bps then
                    [ "Dividends / repo-borrow (net carry mismatch)." ]
                  else []
                | none => [ "Implied net carry not available (invalid inputs or F<=0)." ])
            ++ [ "Settlement & corporate actions (ex-div, specials, splits).",
                 "Bid/ask consistency (mid vs executable, stale quotes)." ]
          else []
        Except.ok
          { base with
            status := status
            baseline_forward := round_to rounding f_baseline
            market_implied_forward := some (round_to rounding f_mkt)
            abs_spread := some (round_to rounding abs_spread)
            rel_spread_bps_vs_fbase := some (round_to 2 rel_bps_fbase)
            rel_spread_bps_vs_spot := some (round_to 2 rel_bps_spot)
            net_carry_implied := q_impl
            net_carry_implied_pct := Option.map (fun q => round_to 3 (q * 100)) q_impl
            net_carry_gap_bps := Option.map (fun g => round_to 1 g) q_gap_bps
            pass_eff := some pass_eff
            tolerances := { base.tolerances with tol_eff := some tol_eff }
            root_cause_hints := hints }

/-- Inner helper `fmt_num` of `format_ipv_report` (src lines 174-175): `"N/A"`
for an absent value, else fixed-point formatting with `nd` decimals (the
numeric text itself is produced by the abstract formatter `fmtF`). -/
def fmt_num (fmtF : ℝ → ℕ → String) (v : Option ℝ) (nd : ℕ) : String :=
  match v with
  | none => "N/A"
  | some x => fmtF x nd

/-- The `lines` list built by `format_ipv_report` (src lines 173-227).
Python's decimal rendering of floats is abstracted into two parameters:
`fmtF v nd` stands for the f-string `v:.ndf` and `fmtS v` for `str(v)`; the
claims about the formatter concern line structure, not digit strings.  In the
source, `rep` is a dict and the tolerance clause also guards on `tol_abs` /
`tol_bps` being present; in this embedding a well-formed report always carries
them, so only the `tol_eff` guard remains. -/
def format_ipv_report_lines (fmtF : ℝ → ℕ → String) (fmtS : ℝ → String)
    (rep : IPVReport) (top_hints : ℤ) : List String :=
  let t := rep.tolerances
  let tol_str :=
    match t.tol_eff with
    | some te =>
        "tol_abs: " ++ fmtS t.tol_abs ++ ", tol_bps: " ++ fmtS t.tol_bps
          ++ ", tol_eff: " ++ fmtF te 3
    | none => "N/A"
  [ "========================================",
    " EQUITY FORWARD IPV REPORT",
    "========================================",
    "STATUS            : " ++ rep.status ]
  ++ (if rep.pass_rule = "" then [] else [ "Rule              : " ++ rep.pass_rule ])
  ++ [ "",
       "F_baseline (carry): " ++ fmtF rep.baseline_forward 3,
       "F_implied (parity): " ++ fmt_num fmtF rep.market_implied_forward 3,
       "",
       "ΔF (abs)          : " ++ fmt_num fmtF rep.abs_spread 3 ++ "   (" ++ tol_str ++ ")",
       "ΔF (bps vs F)     : " ++ fmt_num fmtF rep.rel_spread_bps_vs_fbase 2,
       "ΔF (bps vs S)     : " ++ fmt_num fmtF rep.rel_spread_bps_vs_spot 2,
       "",
       "Net carry (input) : " ++ fmtS rep.net_carry_input_pct ++ "%",
       "Net carry (impl.) : "
         ++ (match rep.net_carry_implied_pct with
             | none => "N/A"
             | some v => fmtF v 3 ++ "%") ]
  ++ (match rep.net_carry_gap_bps with
      | some g => [ "Δq (bps)          : " ++ (if 0 ≤ g then "+" else "") ++ fmtF g 1 ]
      | none => [])
  ++ (if rep.root_cause_hints = [] then []
      else [ "", "Next checks        :" ]
        ++ (rep.root_cause_hints.take (max 0 top_hints).toNat).map (fun h => "- " ++ h))
  ++ [ "========================================" ]

/-- `format_ipv_report` (src lines 173-228): the joined text block. -/
def format_ipv_report (fmtF : ℝ → ℕ → String) (fmtS : ℝ → String)
    (rep : IPVReport) (top_hints : ℤ) : String :=
  String.intercalate "\n" (format_ipv_report_lines fmtF fmtS rep top_hints)

/-- The hint-independent prefix of the report lines: everything
`format_ipv_report_lines` emits before the optional "Next checks" block and the
closing separator.  It never reads `root_cause_hints`. -/
def format_head (fmtF : ℝ → ℕ → String) (fmtS : ℝ → String)
    (rep : IPVReport) : List String :=
  let t := rep.tolerances
  let tol_str :=
    match t.tol_eff with
    | some te =>
        "tol_abs: " ++ fmtS t.tol_abs ++ ", tol_bps: " ++ fmtS t.tol_bps
          ++ ", tol_eff: " ++ fmtF te 3
    | none => "N/A"
  [ "========================================",
    " EQUITY FORWARD IPV REPORT",
    "========================================",
    "STATUS            : " ++ rep.status ]
  ++ (if rep.pass_rule = "" then [] else [ "Rule              : " ++ rep.pass_rule ])
  ++ [ "",
       "F_baseline (carry): " ++ fmtF rep.baseline_forward 3,
       "F_implied (parity): " ++ fmt_num fmtF rep.market_implied_forward 3,
       "",
       "ΔF (abs)          : " ++ fmt_num fmtF rep.abs_spread 3 ++ "   (" ++ tol_str ++ ")",
       "ΔF (bps vs F)     : " ++ fmt_num fmtF rep.rel_spread_bps_vs_fbase 2,
       "ΔF (bps vs S)     : " ++ fmt_num fmtF rep.rel_spread_bps_vs_spot 2,
       "",
       "Net carry (input) : " ++ fmtS rep.net_carry_input_pct ++ "%",
       "Net carry (impl.) : "
         ++ (match rep.net_carry_implied_pct with
             | none => "N/A"
             | some v => fmtF v 3 ++ "%") ]
  ++ (match rep.net_carry_gap_bps with
      | some g => [ "Δq (bps)          : " ++ (if 0 ≤ g then "+" else "") ++ fmtF g 1 ]
      | none => [])

/-- The report record produced by the options branch of `run_ipv_check`
(src lines 111-167), named so that theorems can refer to its fields.
`run_ipv_check_with_options` below proves it is exactly what `run_ipv_check`
returns on that branch. -/
def options_report (x : EquityForwardIPVInputs) (tol_abs tol_bps tol_q_gap_bps : ℝ)
    (rounding : ℕ) (c p : ℝ) : IPVReport :=
  let f_baseline := forward_carry x.spot x.r x.net_carry x.T
  let f_mkt := forward_from_put_call_parity x.strike c p x.r x.T
  let abs_spread := f_mkt - f_baseline
  let rel_bps_fbase := abs_spread / f_baseline * 10000
  let rel_bps_spot := abs_spread / x.spot * 10000
  let tol_eff := max tol_abs (|tol_bps| * f_baseline / 10000)
  let pass_eff : Bool := decide (|abs_spread| ≤ tol_eff)
  let status := if pass_eff then "PASS" else "FAIL"
  let q_impl := implied_net_carry x.spot f_mkt x.r x.T
  let q_gap_bps := Option.map (fun q => (q - x.net_carry) * 10000) q_impl
  let hints : List String :=
    if status = "FAIL" then
      [ "Timestamp alignment (spot vs options).",
        "Conventions (T, day count, compounding, curve)." ]
      ++ [ if abs_spread < 0 then
            "Market-implied forward LOWER: check higher dividends / higher borrow-repo / stale spot."
          else
            "Market-implied forward HIGHER: check lower dividends / lower borrow-repo / stale options." ]
      ++ (match q_gap_bps with
          | some g =>
            if |g| ≥ tol_q_gap_bps then
              [ "Dividends / repo-borrow (net carry mismatch)." ]
            else []
          | none => [ "Implied net carry not available (invalid inputs or F<=0)." ])
      ++ [ "Settlement & corporate actions (ex-div, specials, splits).",
           "Bid/ask consistency (mid vs executable, stale quotes)." ]
    else []
  { status := status
    pass_rule := "|ΔF| <= tol_eff (tol_eff = max(tol_abs, tol_bps * F_carry / 10000))"
    baseline_forward := round_to rounding f_baseline
    market_implied_forward := some (round_to rounding f_mkt)
    abs_spread := some (round_to rounding abs_spread)
    rel_spread_bps_vs_fbase := some (round_to 2 rel_bps_fbase)
    rel_spread_bps_vs_spot := some (round_to 2 rel_bps_spot)
    net_carry_input := x.net_carry
    net_carry_input_pct := round_to 3 (x.net_carry * 100)
    net_carry_implied := q_impl
    net_carry_implied_pct := Option.map (fun q => round_to 3 (q * 100)) q_impl
    net_carry_gap_bps := Option.map (fun g => round_to 1 g) q_gap_bps
    pass_eff := some pass_eff
    tolerances :=
      { tol_abs := tol_abs
        tol_bps := tol_bps
        tol_eff := some tol_eff
        tol_q_gap_bps := tol_q_gap_bps }
    root_cause_hints := hints
    assumptions :=
      { compounding := "continuous"
        net_carry := "dividend_yield - repo/borrow" } }

/-- The report record produced by the no-options branch of `run_ipv_check`
(src lines 81-109). -/
def no_options_report (x : EquityForwardIPVInputs) (tol_abs tol_bps tol_q_gap_bps : ℝ)
    (rounding : ℕ) : IPVReport :=
  { status := "N/A (no options provided)"
    pass_rule := "|ΔF| <= tol_eff (tol_eff = max(tol_abs, tol_bps * F_carry / 10000))"
    baseline_forward := round_to rounding (forward_carry x.spot x.r x.net_carry x.T)
    market_implied_forward := none
    abs_spread := none
    rel_spread_bps_vs_fbase := none
    rel_spread_bps_vs_spot := none
    net_carry_input := x.net_carry
    net_carry_input_pct := round_to 3 (x.net_carry * 100)
    net_carry_implied := none
    net_carry_implied_pct := none
    net_carry_gap_bps := none
    pass_eff := none
    tolerances :=
      { tol_abs := tol_abs
        tol_bps := tol_bps
        tol_eff := none
        tol_q_gap_bps := tol_q_gap_bps }
    root_cause_hints := []
    assumptions :=
      { compounding := "continuous"
        net_carry := "dividend_yield - repo/borrow" } }

/-- The example scenario of the module's `__main__` block (src lines 234-239):
spot 100, r 0.03, net_carry 0.01, T 0.5, strike 100, call 5.20, put 4.80. -/
def example_inputs : EquityForwardIPVInputs :=
  { spot := 100
    r := 3 / 100
    net_carry := 1 / 100
    T := 1 / 2
    strike := 100
    call := some (26 / 5)
    put := some (24 / 5) }

/-- The example scenario with the option quotes removed. -/
def example_inputs_no_options : EquityForwardIPVInputs :=
  { spot := 100
    r := 3 / 100
    net_carry := 1 / 100
    T := 1 / 2
    strike := 100
    call := none
    put := none }

/-- A concrete six-hint FAIL-shaped report, used to instantiate the Reporter
truncation property. -/
def sample_fail_report : IPVReport :=
  { status := "FAIL"
    pass_rule := "|ΔF| <= tol_eff (tol_eff = max(tol_abs, tol_bps * F_carry / 10000))"
    baseline_forward := 101
    market_implied_forward := some 100
    abs_spread := some (-1)
    rel_spread_bps_vs_fbase := some (-99)
    rel_spread_bps_vs_spot := some (-100)
    net_carry_input := 1 / 100
    net_carry_input_pct := 1
    net_carry_implied := some (1 / 50)
    net_carry_implied_pct := some 2
    net_carry_gap_bps := some 100
    pass_eff := some false
    tolerances :=
      { tol_abs := 1 / 5
        tol_bps := 5
        tol_eff := some (1 / 5)
        tol_q_gap_bps := 50 }
    root_cause_hints := [ "h1", "h2", "h3", "h4", "h5", "h6" ]
    assumptions :=
      { compounding := "continuous"
        net_carry := "dividend_yield - repo/borrow" } }

/-- Abstract fixed-point formatter used to instantiate Reporter statements. -/
def sample_fmtF : ℝ → ℕ → String :=
  fun _ _ => "0.0"

/-- Abstract default formatter used to instantiate Reporter statements. -/
def sample_fmtS : ℝ → String :=
  fun _ => "0.0"

/-- `run_ipv_check` on the example scenario with the Python default
tolerances (`tol_abs=0.20`, `tol_bps=5.0`, `tol_q_gap_bps=50.0`, `rounding=6`). -/
def example_run : Except String IPVReport :=
  run_ipv_check example_inputs (1 / 5) 5 50 6

/-- The effective tolerance recorded by the example run (`none` if the run
errored or left it unset). -/
def example_tol_eff : Option ℝ :=
  match example_run with
  | Except.ok r => r.tolerances.tol_eff
  | Except.error _ => none

lemma forward_carry_pos {spot : ℝ} (r net_carry T : ℝ) (h : 0 < spot) :
    0 < forward_carry spot r net_carry T :=
  mul_pos h (Real.exp_pos _)

lemma validate_ok_iff (x : EquityForwardIPVInputs) :
    validate_inputs x = Except.ok () ↔
      0 < x.spot ∧ 0 < x.strike ∧ 0 < x.T ∧
      (∀ c, x.call = some c → 0 ≤ c) ∧ (∀ p, x.put = some p → 0 ≤ p) ∧
      (x.call = none ↔ x.put = none) := by
  constructor
  · intro h
    unfold validate_inputs at h
    split_ifs at h with h1 h2 h3 h4 h5 h6
    push_neg at h4 h5
    have h7 : x.call.isNone = x.put.isNone := by
      by_contra hne
      exact h6 (by
        rcases Bool.eq_false_or_eq_true x.call.isNone with hA | hA <;>
          rcases Bool.eq_false_or_eq_true x.put.isNone with hB | hB <;>
          simp [hA, hB] at hne ⊢)
    refine ⟨not_le.mp h1, not_le.mp h2, not_le.mp h3, h4, h5, ?_⟩
    rw [← Option.isNone_iff_eq_none, ← Option.isNone_iff_eq_none, h7]
  · rintro ⟨hs, hk, hT, hc, hp, hcp⟩
    have hcneg : ¬∃ c, x.call = some c ∧ c < 0 := by
      rintro ⟨c, hcall, hlt⟩
      exact absurd hlt (not_lt.mpr (hc c hcall))
    have hpneg : ¬∃ p, x.put = some p ∧ p < 0 := by
      rintro ⟨p, hput, hlt⟩
      exact absurd hlt (not_lt.mpr (hp p hput))
    have hxor : ¬(x.call.isNone ^^ x.put.isNone) = true := by
      rcases hcall : x.call with _ | c <;> rcases hput : x.put with _ | p <;>
        simp [hcall, hput] at hcp ⊢
    unfold validate_inputs
    rw [if_neg (not_le.mpr hs), if_neg (not_le.mpr hk), if_neg (not_le.mpr hT),
      if_neg hcneg, if_neg hpneg, if_neg hxor]

lemma run_ipv_check_no_options (x : EquityForwardIPVInputs) (ta tb tq : ℝ) (nd : ℕ)
    (hv : validate_inputs x = Except.ok ()) (hc : x.call = none) :
    run_ipv_check x ta tb tq nd = Except.ok (no_options_report x ta tb tq nd) := by
  unfold run_ipv_check no_options_report
  rw [hv, hc]

lemma run_ipv_check_with_options (x : EquityForwardIPVInputs) (ta tb tq : ℝ) (nd : ℕ)
    (c p : ℝ) (hv : validate_inputs x = Except.ok ())
    (hc : x.call = some c) (hp : x.put = some p) :
    run_ipv_check x ta tb tq nd = Except.ok (options_report x ta tb tq nd c p) := by
  unfold run_ipv_check options_report
  rw [hv, hc, hp]

/-- Half-a-unit-in-the-last-displayed-digit bound for decimal rounding. -/
lemma round_to_close (nd : ℕ) (v : ℝ) : |round_to nd v - v| ≤ 1 / (2 * 10 ^ nd) := by
  have hpow : (0 : ℝ) < 10 ^ nd := by positivity
  have h := abs_sub_round (v * 10 ^ nd)
  have heq : round_to nd v - v =
      ((round (v * 10 ^ nd) : ℤ) - v * 10 ^ nd) / 10 ^ nd := by
    unfold round_to
    field_simp
    ring
  have h2 : |((round (v * 10 ^ nd) : ℤ) : ℝ) - v * 10 ^ nd| ≤ 1 / 2 := by
    rw [abs_sub_comm]
    exact h
  rw [heq, abs_div, abs_of_pos hpow, div_le_div_iff₀ hpow (by positivity)]
  nlinarith [h2, hpow]

lemma validate_example : validate_inputs example_inputs = Except.ok () := by
  rw [validate_ok_iff]
  refine ⟨by norm_num [example_inputs], by norm_num [example_inputs],
    by norm_num [example_inputs], ?_, ?_, by simp [example_inputs]⟩
  · intro c hc
    simp only [example_inputs, Option.some.injEq] at hc
    rw [← hc]
    norm_num
  · intro p hp
    simp only [example_inputs, Option.some.injEq] at hp
    rw [← hp]
    norm_num

lemma validate_example_no_options :
    validate_inputs example_inputs_no_options = Except.ok () := by
  rw [validate_ok_iff]
  refine ⟨by norm_num [example_inputs_no_options], by norm_num [example_inputs_no_options],
    by norm_num [example_inputs_no_options], ?_, ?_, by simp [example_inputs_no_options]⟩
  · intro c hc
    simp [example_inputs_no_options] at hc
  · intro p hp
    simp [example_inputs_no_options] at hp

/-- C4: `validate_inputs` fails with an error exactly when `spot ≤ 0`, or
`strike ≤ 0`, or `T ≤ 0`, or a supplied call is negative, or a supplied put is
negative, or exactly one of call/put is supplied; on every other input it
returns `ok ()` (in particular it accepts call and put both absent), and its
outcome is always either that success value or such an error. -/
theorem C4_validator_characterization (x : EquityForwardIPVInputs) :
    (validate_inputs x = Except.ok () ↔
      0 < x.spot ∧ 0 < x.strike ∧ 0 < x.T ∧
      (∀ c, x.call = some c → 0 ≤ c) ∧ (∀ p, x.put = some p → 0 ≤ p) ∧
      (x.call = none ↔ x.put = none)) ∧
    (validate_inputs x = Except.ok () ∨ ∃ e, validate_inputs x = Except.error e) := by
  refine ⟨validate_ok_iff x, ?_⟩
  cases h : validate_inputs x with
  | ok u =>
    left
    cases u
    rfl
  | error e =>
    right
    exact ⟨e, rfl⟩

/-- Instantiation of `C4_validator_characterization` at the concrete input
(spot 100, r 0.03, q 0.01, T 0.5, strike 100, no options): the validator
accepts it, matching the right-hand side of the characterization. -/
theorem C4_validator_characterization_witness :
    (validate_inputs example_inputs_no_options = Except.ok () ↔
      0 < example_inputs_no_options.spot ∧ 0 < example_inputs_no_options.strike ∧
      0 < example_inputs_no_options.T ∧
      (∀ c, example_inputs_no_options.call = some c → 0 ≤ c) ∧
      (∀ p, example_inputs_no_options.put = some p → 0 ≤ p) ∧
      (example_inputs_no_options.call = none ↔ example_inputs_no_options.put = none)) ∧
    (validate_inputs example_inputs_no_options = Except.ok () ∨
      ∃ e, validate_inputs example_inputs_no_options = Except.error e) :=
  C4_validator_characterization example_inputs_no_options

/-- C7: `implied_net_carry` inverts `forward_carry`: for positive spot and
maturity and any real rates, feeding the carry forward back in recovers the
net-carry input exactly, wrapped in `some`. -/
theorem C7_round_trip (spot r q T : ℝ) (hs : 0 < spot) (hT : 0 < T) :
    implied_net_carry spot (forward_carry spot r q T) r T = some q := by
  have hT0 : T ≠ 0 := ne_of_gt hT
  have hs0 : spot ≠ 0 := ne_of_gt hs
  have hF : 0 < spot * Real.exp ((r - q) * T) := mul_pos hs (Real.exp_pos _)
  unfold implied_net_carry forward_carry
  rw [if_neg (by push_neg; exact ⟨hs, hT, hF⟩)]
  have h1 : spot * Real.exp ((r - q) * T) / spot = Real.exp ((r - q) * T) := by
    field_simp
  rw [h1, Real.log_exp, Option.some.injEq]
  field_simp

/-- Instantiation of `C7_round_trip` at spot 100, r 0.03, q 0.01, T 0.5. -/
theorem C7_round_trip_witness :
    0 < (100 : ℝ) ∧ 0 < (1 / 2 : ℝ) ∧
      implied_net_carry 100 (forward_carry 100 (3 / 100) (1 / 100) (1 / 2))
        (3 / 100) (1 / 2) = some (1 / 100) :=
  ⟨by norm_num, by norm_num,
    C7_round_trip 100 (3 / 100) (1 / 100) (1 / 2) (by norm_num) (by norm_num)⟩

/-- C9: for every input the validator accepts, the baseline forward
`spot * exp((r - net_carry) * T)` is strictly positive, hence nonzero, and so
is `spot`; the divisors of `run_ipv_check`'s relative-spread and
effective-tolerance computations are therefore nonzero. -/
theorem C9_divisors_nonzero (x : EquityForwardIPVInputs)
    (hv : validate_inputs x = Except.ok ()) :
    0 < forward_carry x.spot x.r x.net_carry x.T ∧
    forward_carry x.spot x.r x.net_carry x.T ≠ 0 ∧ x.spot ≠ 0 := by
  obtain ⟨hs, -, -, -, -, -⟩ := (validate_ok_iff x).mp hv
  have h := forward_carry_pos x.r x.net_carry x.T hs
  exact ⟨h, ne_of_gt h, ne_of_gt hs⟩

/-- Instantiation of `C9_divisors_nonzero` at the example inputs. -/
theorem C9_divisors_nonzero_witness :
    0 < forward_carry example_inputs.spot example_inputs.r
        example_inputs.net_carry example_inputs.T ∧
    forward_carry example_inputs.spot example_inputs.r
        example_inputs.net_carry example_inputs.T ≠ 0 ∧
    example_inputs.spot ≠ 0 :=
  C9_divisors_nonzero example_inputs validate_example

/-- C6: on a validated input with no options supplied, `run_ipv_check` returns
successfully (not an error) with status `"N/A (no options provided)"`, the
baseline forward populated, and every option-derived field absent. -/
theorem C6_not_applicable (x : EquityForwardIPVInputs) (ta tb tq : ℝ) (nd : ℕ)
    (hv : validate_inputs x = Except.ok ()) (hc : x.call = none) :
    ∃ rep, run_ipv_check x ta tb tq nd = Except.ok rep ∧
      rep.status = "N/A (no options provided)" ∧
      rep.baseline_forward = round_to nd (forward_carry x.spot x.r x.net_carry x.T) ∧
      rep.market_implied_forward = none ∧
      rep.abs_spread = none ∧
      rep.rel_spread_bps_vs_fbase = none ∧
      rep.rel_spread_bps_vs_spot = none ∧
      rep.net_carry_implied = none ∧
      rep.net_carry_implied_pct = none ∧
      rep.net_carry_gap_bps = none ∧
      rep.pass_eff = none ∧
      rep.root_cause_hints = [] :=
  ⟨no_options_report x ta tb tq nd, run_ipv_check_no_options x ta tb tq nd hv hc,
    rfl, rfl, rfl, rfl, rfl, rfl, rfl, rfl, rfl, rfl, rfl⟩

/-- Instantiation of `C6_not_applicable` at the example inputs without options
and the default tolerances. -/
theorem C6_not_applicable_witness :
    ∃ rep, run_ipv_check example_inputs_no_options (1 / 5) 5 50 6 = Except.ok rep ∧
      rep.status = "N/A (no options provided)" ∧
      rep.baseline_forward = round_to 6 (forward_carry example_inputs_no_options.spot
        example_inputs_no_options.r example_inputs_no_options.net_carry
        example_inputs_no_options.T) ∧
      rep.market_implied_forward = none ∧
      rep.abs_spread = none ∧
      rep.rel_spread_bps_vs_fbase = none ∧
      rep.rel_spread_bps_vs_spot = none ∧
      rep.net_carry_implied = none ∧
      rep.net_carry_implied_pct = none ∧
      rep.net_carry_gap_bps = none ∧
      rep.pass_eff = none ∧
      rep.root_cause_hints = [] :=
  C6_not_applicable example_inputs_no_options (1 / 5) 5 50 6
    validate_example_no_options rfl

/-- C10: in the NOT_APPLICABLE report the effective tolerance and the pass
boolean are absent while the configured tolerances, input net carry, pass-rule
text and assumptions are populated; and whenever both options are supplied the
returned report carries an effective tolerance and a pass boolean. -/
theorem C10_tol_eff_and_pass_only_when_evaluated (x : EquityForwardIPVInputs)
    (ta tb tq : ℝ) (nd : ℕ) (hv : validate_inputs x = Except.ok ()) :
    (x.call = none →
      ∃ rep, run_ipv_check x ta tb tq nd = Except.ok rep ∧
        rep.tolerances.tol_eff = none ∧
        rep.pass_eff = none ∧
        rep.tolerances.tol_abs = ta ∧
        rep.tolerances.tol_bps = tb ∧
        rep.tolerances.tol_q_gap_bps = tq ∧
        rep.net_carry_input = x.net_carry ∧
        rep.net_carry_input_pct = round_to 3 (x.net_carry * 100) ∧
        rep.pass_rule = "|ΔF| <= tol_eff (tol_eff = max(tol_abs, tol_bps * F_carry / 10000))" ∧
        rep.assumptions.compounding = "continuous" ∧
        rep.assumptions.net_carry = "dividend_yield - repo/borrow") ∧
    (∀ c p, x.call = some c → x.put = some p →
      ∃ rep, run_ipv_check x ta tb tq nd = Except.ok rep ∧
        rep.tolerances.tol_eff.isSome = true ∧ rep.pass_eff.isSome = true) := by
  constructor
  · intro hc
    exact ⟨no_options_report x ta tb tq nd, run_ipv_check_no_options x ta tb tq nd hv hc,
      rfl, rfl, rfl, rfl, rfl, rfl, rfl, rfl, rfl, rfl⟩
  · intro c p hc hp
    exact ⟨options_report x ta tb tq nd c p,
      run_ipv_check_with_options x ta tb tq nd c p hv hc hp, rfl, rfl⟩

/-- Instantiation of `C10_tol_eff_and_pass_only_when_evaluated` at the example
inputs without options. -/
theorem C10_tol_eff_and_pass_only_when_evaluated_witness :
    (example_inputs_no_options.call = none →
      ∃ rep, run_ipv_check example_inputs_no_options (1 / 5) 5 50 6 = Except.ok rep ∧
        rep.tolerances.tol_eff = none ∧
        rep.pass_eff = none ∧
        rep.tolerances.tol_abs = 1 / 5 ∧
        rep.tolerances.tol_bps = 5 ∧
        rep.tolerances.tol_q_gap_bps = 50 ∧
        rep.net_carry_input = example_inputs_no_options.net_carry ∧
        rep.net_carry_input_pct = round_to 3 (example_inputs_no_options.net_carry * 100) ∧
        rep.pass_rule = "|ΔF| <= tol_eff (tol_eff = max(tol_abs, tol_bps * F_carry / 10000))" ∧
        rep.assumptions.compounding = "continuous" ∧
        rep.assumptions.net_carry = "dividend_yield - repo/borrow") ∧
    (∀ c p, example_inputs_no_options.call = some c → example_inputs_no_options.put = some p →
      ∃ rep, run_ipv_check example_inputs_no_options (1 / 5) 5 50 6 = Except.ok rep ∧
        rep.tolerances.tol_eff.isSome = true ∧ rep.pass_eff.isSome = true) :=
  C10_tol_eff_and_pass_only_when_evaluated example_inputs_no_options (1 / 5) 5 50 6
    validate_example_no_options

lemma pass_ne_fail : ("PASS" : String) ≠ "FAIL" := by decide

lemma options_report_status (x : EquityForwardIPVInputs) (ta tb tq : ℝ) (nd : ℕ)
    (c p : ℝ) :
    (options_report x ta tb tq nd c p).status =
      if |forward_from_put_call_parity x.strike c p x.r x.T -
            forward_carry x.spot x.r x.net_carry x.T| ≤
          max ta (|tb| * forward_carry x.spot x.r x.net_carry x.T / 10000)
      then "PASS" else "FAIL" := by
  simp [options_report]

lemma options_report_hints (x : EquityForwardIPVInputs) (ta tb tq : ℝ) (nd : ℕ)
    (c p : ℝ) :
    (options_report x ta tb tq nd c p).root_cause_hints =
      if (options_report x ta tb tq nd c p).status = "FAIL" then
        [ "Timestamp alignment (spot vs options).",
          "Conventions (T, day count, compounding, curve)." ]
        ++ [ if forward_from_put_call_parity x.strike c p x.r x.T -
                forward_carry x.spot x.r x.net_carry x.T < 0 then
              "Market-implied forward LOWER: check higher dividends / higher borrow-repo / stale spot."
            else
              "Market-implied forward HIGHER: check lower dividends / lower borrow-repo / stale options." ]
        ++ (match implied_net_carry x.spot
              (forward_from_put_call_parity x.strike c p x.r x.T) x.r x.T with
            | some q =>
              if |(q - x.net_carry) * 10000| ≥ tq then
                [ "Dividends / repo-borrow (net carry mismatch)." ]
              else []
            | none => [ "Implied net carry not available (invalid inputs or F<=0)." ])
        ++ [ "Settlement & corporate actions (ex-div, specials, splits).",
             "Bid/ask consistency (mid vs executable, stale quotes)." ]
      else [] := by
  rcases hq : implied_net_carry x.spot
      (forward_from_put_call_parity x.strike c p x.r x.T) x.r x.T with _ | q <;>
    simp [options_report, hq]

/-- C1: on a validated input with both options supplied, the report's status is
`"PASS"` exactly when `|abs_spread| ≤ max(tol_abs, |tol_bps| * f_baseline / 10000)`
(non-strict, so equality passes), and `"FAIL"` exactly otherwise. -/
theorem C1_pass_iff_within_tolerance (x : EquityForwardIPVInputs) (ta tb tq : ℝ)
    (nd : ℕ) (c p : ℝ) (hv : validate_inputs x = Except.ok ())
    (hc : x.call = some c) (hp : x.put = some p) :
    ∃ rep, run_ipv_check x ta tb tq nd = Except.ok rep ∧
      (rep.status = "PASS" ↔
        |forward_from_put_call_parity x.strike c p x.r x.T -
            forward_carry x.spot x.r x.net_carry x.T| ≤
          max ta (|tb| * forward_carry x.spot x.r x.net_carry x.T / 10000)) ∧
      (rep.status = "FAIL" ↔
        ¬ |forward_from_put_call_parity x.strike c p x.r x.T -
            forward_carry x.spot x.r x.net_carry x.T| ≤
          max ta (|tb| * forward_carry x.spot x.r x.net_carry x.T / 10000)) := by
  refine ⟨options_report x ta tb tq nd c p,
    run_ipv_check_with_options x ta tb tq nd c p hv hc hp, ?_, ?_⟩ <;>
    rw [options_report_status] <;>
    by_cases h : |forward_from_put_call_parity x.strike c p x.r x.T -
        forward_carry x.spot x.r x.net_carry x.T| ≤
      max ta (|tb| * forward_carry x.spot x.r x.net_carry x.T / 10000) <;>
    simp [h, pass_ne_fail, pass_ne_fail.symm]

/-- Instantiation of `C1_pass_iff_within_tolerance` at the example inputs with
default tolerances. -/
theorem C1_pass_iff_within_tolerance_witness :
    ∃ rep, run_ipv_check example_inputs (1 / 5) 5 50 6 = Except.ok rep ∧
      (rep.status = "PASS" ↔
        |forward_from_put_call_parity example_inputs.strike (26 / 5) (24 / 5)
            example_inputs.r example_inputs.T -
            forward_carry example_inputs.spot example_inputs.r
              example_inputs.net_carry example_inputs.T| ≤
          max (1 / 5) (|(5 : ℝ)| * forward_carry example_inputs.spot example_inputs.r
              example_inputs.net_carry example_inputs.T / 10000)) ∧
      (rep.status = "FAIL" ↔
        ¬ |forward_from_put_call_parity example_inputs.strike (26 / 5) (24 / 5)
            example_inputs.r example_inputs.T -
            forward_carry example_inputs.spot example_inputs.r
              example_inputs.net_carry example_inputs.T| ≤
          max (1 / 5) (|(5 : ℝ)| * forward_carry example_inputs.spot example_inputs.r
              example_inputs.net_carry example_inputs.T / 10000)) :=
  C1_pass_iff_within_tolerance example_inputs (1 / 5) 5 50 6 (26 / 5) (24 / 5)
    validate_example rfl rfl

/-- C5: on a validated input with both options supplied, the reported
market-implied forward is `strike + exp(r*T)*(call - put)`, the baseline
forward is `spot * exp((r - net_carry)*T)`, and the absolute spread is their
difference — each stored after display rounding to `rounding` decimals, hence
within half a unit in the last displayed digit of the exact formula value. -/
theorem C5_reported_formulas (x : EquityForwardIPVInputs) (ta tb tq : ℝ)
    (nd : ℕ) (c p : ℝ) (hv : validate_inputs x = Except.ok ())
    (hc : x.call = some c) (hp : x.put = some p) :
    ∃ rep, run_ipv_check x ta tb tq nd = Except.ok rep ∧
      rep.baseline_forward =
        round_to nd (x.spot * Real.exp ((x.r - x.net_carry) * x.T)) ∧
      rep.market_implied_forward =
        some (round_to nd (x.strike + Real.exp (x.r * x.T) * (c - p))) ∧
      rep.abs_spread =
        some (round_to nd ((x.strike + Real.exp (x.r * x.T) * (c - p)) -
          x.spot * Real.exp ((x.r - x.net_carry) * x.T))) ∧
      |rep.baseline_forward - x.spot * Real.exp ((x.r - x.net_carry) * x.T)| ≤
        1 / (2 * 10 ^ nd) ∧
      (∀ fm, rep.market_implied_forward = some fm →
        |fm - (x.strike + Real.exp (x.r * x.T) * (c - p))| ≤ 1 / (2 * 10 ^ nd)) ∧
      (∀ s, rep.abs_spread = some s →
        |s - ((x.strike + Real.exp (x.r * x.T) * (c - p)) -
          x.spot * Real.exp ((x.r - x.net_carry) * x.T))| ≤ 1 / (2 * 10 ^ nd)) := by
  refine ⟨options_report x ta tb tq nd c p,
    run_ipv_check_with_options x ta tb tq nd c p hv hc hp, rfl, rfl, rfl,
    round_to_close nd _, ?_, ?_⟩
  · intro fm hfm
    rw [show (options_report x ta tb tq nd c p).market_implied_forward =
      some (round_to nd (x.strike + Real.exp (x.r * x.T) * (c - p))) from rfl] at hfm
    rw [← Option.some.inj hfm]
    exact round_to_close nd _
  · intro s hs
    rw [show (options_report x ta tb tq nd c p).abs_spread =
      some (round_to nd ((x.strike + Real.exp (x.r * x.T) * (c - p)) -
        x.spot * Real.exp ((x.r - x.net_carry) * x.T))) from rfl] at hs
    rw [← Option.some.inj hs]
    exact round_to_close nd _

/-- Instantiation of `C5_reported_formulas` at the example inputs. -/
theorem C5_reported_formulas_witness :
    ∃ rep, run_ipv_check example_inputs (1 / 5) 5 50 6 = Except.ok rep ∧
      rep.baseline_forward =
        round_to 6 (example_inputs.spot *
          Real.exp ((example_inputs.r - example_inputs.net_carry) * example_inputs.T)) ∧
      rep.market_implied_forward =
        some (round_to 6 (example_inputs.strike +
          Real.exp (example_inputs.r * example_inputs.T) * (26 / 5 - 24 / 5))) ∧
      rep.abs_spread =
        some (round_to 6 ((example_inputs.strike +
          Real.exp (example_inputs.r * example_inputs.T) * (26 / 5 - 24 / 5)) -
          example_inputs.spot *
            Real.exp ((example_inputs.r - example_inputs.net_carry) * example_inputs.T))) ∧
      |rep.baseline_forward - example_inputs.spot *
          Real.exp ((example_inputs.r - example_inputs.net_carry) * example_inputs.T)| ≤
        1 / (2 * 10 ^ 6) ∧
      (∀ fm, rep.market_implied_forward = some fm →
        |fm - (example_inputs.strike +
          Real.exp (example_inputs.r * example_inputs.T) * (26 / 5 - 24 / 5))| ≤
          1 / (2 * 10 ^ 6)) ∧
      (∀ s, rep.abs_spread = some s →
        |s - ((example_inputs.strike +
          Real.exp (example_inputs.r * example_inputs.T) * (26 / 5 - 24 / 5)) -
          example_inputs.spot *
            Real.exp ((example_inputs.r - example_inputs.net_carry) * example_inputs.T))| ≤
          1 / (2 * 10 ^ 6)) :=
  C5_reported_formulas example_inputs (1 / 5) 5 50 6 (26 / 5) (24 / 5)
    validate_example rfl rfl

/-- C3: on every validated input the hint list is non-empty exactly when the
status is `"FAIL"` (so on PASS and on the no-options NOT_APPLICABLE report it
is empty), and on FAIL it is exactly the fixed sequence: timestamp alignment,
conventions, the sign-dependent directional hint, then either the
carry-mismatch hint (implied carry present and `|gap| ≥ tol_q_gap_bps`) or the
not-available hint (exactly when the implied carry is absent) — mutually
exclusive — then settlement & corporate actions, then bid/ask consistency. -/
theorem C3_hint_structure (x : EquityForwardIPVInputs) (ta tb tq : ℝ) (nd : ℕ)
    (hv : validate_inputs x = Except.ok ()) :
    ∃ rep, run_ipv_check x ta tb tq nd = Except.ok rep ∧
      (rep.root_cause_hints ≠ [] ↔ rep.status = "FAIL") ∧
      (∀ c p, x.call = some c → x.put = some p → rep.status = "FAIL" →
        rep.root_cause_hints =
          [ "Timestamp alignment (spot vs options).",
            "Conventions (T, day count, compounding, curve)." ]
          ++ [ if forward_from_put_call_parity x.strike c p x.r x.T -
                  forward_carry x.spot x.r x.net_carry x.T < 0 then
                "Market-implied forward LOWER: check higher dividends / higher borrow-repo / stale spot."
              else
                "Market-implied forward HIGHER: check lower dividends / lower borrow-repo / stale options." ]
          ++ (match implied_net_carry x.spot
                (forward_from_put_call_parity x.strike c p x.r x.T) x.r x.T with
              | some q =>
                if |(q - x.net_carry) * 10000| ≥ tq then
                  [ "Dividends / repo-borrow (net carry mismatch)." ]
                else []
              | none => [ "Implied net carry not available (invalid inputs or F<=0)." ])
          ++ [ "Settlement & corporate actions (ex-div, specials, splits).",
               "Bid/ask consistency (mid vs executable, stale quotes)." ]) := by
  obtain ⟨-, -, -, -, -, hcp⟩ := (validate_ok_iff x).mp hv
  rcases hcall : x.call with _ | c
  · refine ⟨no_options_report x ta tb tq nd,
      run_ipv_check_no_options x ta tb tq nd hv hcall, ?_, ?_⟩
    · simp [no_options_report]
    · intro c p hc hp
      exact absurd hc (by simp)
  · rcases hput : x.put with _ | p
    · rw [hcp.mpr hput] at hcall
      exact absurd hcall (by simp)
    · refine ⟨options_report x ta tb tq nd c p,
        run_ipv_check_with_options x ta tb tq nd c p hv hcall hput, ?_, ?_⟩
      · rw [options_report_hints, options_report_status]
        by_cases h : |forward_from_put_call_parity x.strike c p x.r x.T -
            forward_carry x.spot x.r x.net_carry x.T| ≤
          max ta (|tb| * forward_carry x.spot x.r x.net_carry x.T / 10000)
        · simp [h, pass_ne_fail]
        · rw [if_neg h]
          simp
      · intro c' p' hc' hp' hfail
        obtain rfl : c' = c := (Option.some.inj hc').symm
        obtain rfl : p' = p := (Option.some.inj hp').symm
        rw [options_report_hints, if_pos hfail]

lemma exp_hundredth : |Real.exp (1 / 100) - 101005 / 100000| ≤ 1 / 1000000 := by
  have hx : |(1 : ℝ) / 100| ≤ 1 := by
    rw [abs_of_pos (by norm_num : (0 : ℝ) < 1 / 100)]
    norm_num
  have h := @Real.exp_bound (1 / 100) hx 3 (by norm_num)
  have hsum : ∑ m ∈ Finset.range 3, ((1 : ℝ) / 100) ^ m / m.factorial
      = 101005 / 100000 := by
    rw [Finset.sum_range_succ, Finset.sum_range_succ, Finset.sum_range_succ,
      Finset.sum_range_zero]
    norm_num [Nat.factorial]
  rw [hsum] at h
  refine h.trans ?_
  rw [abs_of_pos (by norm_num : (0 : ℝ) < 1 / 100)]
  norm_num [Nat.factorial]

lemma exp_three_two_hundredths :
    |Real.exp (3 / 200) - 10151125 / 10000000| ≤ 1 / 1000000 := by
  have hx : |(3 : ℝ) / 200| ≤ 1 := by
    rw [abs_of_pos (by norm_num : (0 : ℝ) < 3 / 200)]
    norm_num
  have h := @Real.exp_bound (3 / 200) hx 3 (by norm_num)
  have hsum : ∑ m ∈ Finset.range 3, ((3 : ℝ) / 200) ^ m / m.factorial
      = 10151125 / 10000000 := by
    rw [Finset.sum_range_succ, Finset.sum_range_succ, Finset.sum_range_succ,
      Finset.sum_range_zero]
    norm_num [Nat.factorial]
  rw [hsum] at h
  refine h.trans ?_
  rw [abs_of_pos (by norm_num : (0 : ℝ) < 3 / 200)]
  norm_num [Nat.factorial]

lemma example_f_baseline :
    forward_carry example_inputs.spot example_inputs.r example_inputs.net_carry
      example_inputs.T = 100 * Real.exp (1 / 100) := by
  unfold forward_carry
  rw [show (example_inputs.r - example_inputs.net_carry) * example_inputs.T
    = (1 : ℝ) / 100 by norm_num [example_inputs]]
  norm_num [example_inputs]

lemma example_f_mkt :
    forward_from_put_call_parity example_inputs.strike (26 / 5) (24 / 5)
      example_inputs.r example_inputs.T = 100 + Real.exp (3 / 200) * (2 / 5) := by
  unfold forward_from_put_call_parity
  rw [show example_inputs.r * example_inputs.T = (3 : ℝ) / 200 by
    norm_num [example_inputs]]
  norm_num [example_inputs]

lemma example_baseline_close :
    |round_to 6 (100 * Real.exp (1 / 100)) - 101.005| ≤ 1 / 1000 := by
  have h1 := round_to_close 6 (100 * Real.exp (1 / 100))
  have h2 := exp_hundredth
  rw [abs_le] at h1 h2 ⊢
  norm_num at h1 h2 ⊢
  constructor <;> linarith [h1.1, h1.2, h2.1, h2.2]

lemma example_market_close :
    |round_to 6 (100 + Real.exp (3 / 200) * (2 / 5)) - 100.406| ≤ 1 / 1000 := by
  have h1 := round_to_close 6 (100 + Real.exp (3 / 200) * (2 / 5))
  have h2 := exp_three_two_hundredths
  rw [abs_le] at h1 h2 ⊢
  norm_num at h1 h2 ⊢
  constructor <;> linarith [h1.1, h1.2, h2.1, h2.2]

lemma example_spread_close :
    |round_to 6 ((100 + Real.exp (3 / 200) * (2 / 5)) - 100 * Real.exp (1 / 100)) -
      (-0.599)| ≤ 1 / 1000 := by
  have h1 := round_to_close 6
    ((100 + Real.exp (3 / 200) * (2 / 5)) - 100 * Real.exp (1 / 100))
  have h2 := exp_hundredth
  have h3 := exp_three_two_hundredths
  rw [abs_le] at h1 h2 h3 ⊢
  norm_num at h1 h2 h3 ⊢
  constructor <;> linarith [h1.1, h1.2, h2.1, h2.2, h3.1, h3.2]

lemma example_tol_eff_value :
    max ((1 : ℝ) / 5) (|(5 : ℝ)| * (100 * Real.exp (1 / 100)) / 10000) = 1 / 5 := by
  have h2 := exp_hundredth
  rw [abs_le] at h2
  rw [show |(5 : ℝ)| = 5 by norm_num]
  rw [max_eq_left]
  nlinarith [h2.1, h2.2]

lemma example_spread_exceeds :
    ¬ |(100 + Real.exp (3 / 200) * (2 / 5)) - 100 * Real.exp (1 / 100)| ≤
      max ((1 : ℝ) / 5) (|(5 : ℝ)| * (100 * Real.exp (1 / 100)) / 10000) := by
  rw [example_tol_eff_value, not_le]
  have h2 := exp_hundredth
  have h3 := exp_three_two_hundredths
  rw [abs_le] at h2 h3
  have hneg : (100 + Real.exp (3 / 200) * (2 / 5)) - 100 * Real.exp (1 / 100) < 0 := by
    nlinarith [h2.1, h3.2]
  rw [abs_of_neg hneg]
  nlinarith [h2.1, h3.2]

/-- C2 counterexample: the claim puts the example's effective tolerance at
≈ 0.505, but the code computes `tol_eff = max(0.20, 5 * f_baseline / 10000)`
= `max(0.20, ≈0.0505)` = 0.20 exactly, which is not within 0.25 of 0.505. -/
theorem C2_example_scenario_counterexample :
    example_tol_eff = some (1 / 5) ∧ ¬ |(1 / 5 : ℝ) - 0.505| ≤ 1 / 4 := by
  constructor
  · unfold example_tol_eff example_run
    rw [run_ipv_check_with_options example_inputs (1 / 5) 5 50 6 (26 / 5) (24 / 5)
      validate_example rfl rfl]
    show (options_report example_inputs (1 / 5) 5 50 6 (26 / 5) (24 / 5)).tolerances.tol_eff
      = some (1 / 5)
    rw [show (options_report example_inputs (1 / 5) 5 50 6 (26 / 5) (24 / 5)).tolerances.tol_eff
      = some (max ((1 : ℝ) / 5) (|(5 : ℝ)| * forward_carry example_inputs.spot
          example_inputs.r example_inputs.net_carry example_inputs.T / 10000)) from rfl,
      example_f_baseline, example_tol_eff_value]
  · rw [show (1 / 5 : ℝ) - 0.505 = -(0.305) by norm_num, abs_neg,
      abs_of_pos (by norm_num : (0 : ℝ) < 0.305)]
    norm_num

/-- C2 (amended): at the example scenario (spot 100, r 0.03, net_carry 0.01,
T 0.5, strike 100, call 5.20, put 4.80, tol_abs 0.20, tol_bps 5.0) the report
has baseline forward ≈ 101.005, market-implied forward ≈ 100.406, abs_spread
≈ −0.599, and status FAIL; the effective tolerance is
`max(0.20, 5 * f_baseline / 10000) = max(0.20, ≈0.0505) = 0.20` (not ≈ 0.505),
and `|−0.599| > 0.20` still yields FAIL. -/
theorem C2_example_scenario_amended :
    ∃ rep, run_ipv_check example_inputs (1 / 5) 5 50 6 = Except.ok rep ∧
      |rep.baseline_forward - 101.005| ≤ 1 / 1000 ∧
      (∀ fm, rep.market_implied_forward = some fm → |fm - 100.406| ≤ 1 / 1000) ∧
      (∀ s, rep.abs_spread = some s → |s - (-0.599)| ≤ 1 / 1000) ∧
      rep.tolerances.tol_eff = some (1 / 5) ∧
      rep.status = "FAIL" := by
  refine ⟨options_report example_inputs (1 / 5) 5 50 6 (26 / 5) (24 / 5),
    run_ipv_check_with_options example_inputs (1 / 5) 5 50 6 (26 / 5) (24 / 5)
      validate_example rfl rfl, ?_, ?_, ?_, ?_, ?_⟩
  · rw [show (options_report example_inputs (1 / 5) 5 50 6 (26 / 5) (24 / 5)).baseline_forward
      = round_to 6 (forward_carry example_inputs.spot example_inputs.r
        example_inputs.net_carry example_inputs.T) from rfl, example_f_baseline]
    exact example_baseline_close
  · intro fm hfm
    rw [show (options_report example_inputs (1 / 5) 5 50 6 (26 / 5) (24 / 5)).market_implied_forward
      = some (round_to 6 (forward_from_put_call_parity example_inputs.strike (26 / 5)
        (24 / 5) example_inputs.r example_inputs.T)) from rfl, example_f_mkt] at hfm
    rw [← Option.some.inj hfm]
    exact example_market_close
  · intro s hs
    rw [show (options_report example_inputs (1 / 5) 5 50 6 (26 / 5) (24 / 5)).abs_spread
      = some (round_to 6 (forward_from_put_call_parity example_inputs.strike (26 / 5)
        (24 / 5) example_inputs.r example_inputs.T - forward_carry example_inputs.spot
        example_inputs.r example_inputs.net_carry example_inputs.T)) from rfl,
      example_f_mkt, example_f_baseline] at hs
    rw [← Option.some.inj hs]
    exact example_spread_close
  · rw [show (options_report example_inputs (1 / 5) 5 50 6 (26 / 5) (24 / 5)).tolerances.tol_eff
      = some (max ((1 : ℝ) / 5) (|(5 : ℝ)| * forward_carry example_inputs.spot
          example_inputs.r example_inputs.net_carry example_inputs.T / 10000)) from rfl,
      example_f_baseline, example_tol_eff_value]
  · rw [options_report_status, example_f_baseline, example_f_mkt,
      if_neg example_spread_exceeds]

/-- Instantiation of `C3_hint_structure` at the example inputs with default
tolerances. -/
theorem C3_hint_structure_witness :
    ∃ rep, run_ipv_check example_inputs (1 / 5) 5 50 6 = Except.ok rep ∧
      (rep.root_cause_hints ≠ [] ↔ rep.status = "FAIL") ∧
      (∀ c p, example_inputs.call = some c → example_inputs.put = some p →
        rep.status = "FAIL" →
        rep.root_cause_hints =
          [ "Timestamp alignment (spot vs options).",
            "Conventions (T, day count, compounding, curve)." ]
          ++ [ if forward_from_put_call_parity example_inputs.strike c p
                  example_inputs.r example_inputs.T -
                  forward_carry example_inputs.spot example_inputs.r
                    example_inputs.net_carry example_inputs.T < 0 then
                "Market-implied forward LOWER: check higher dividends / higher borrow-repo / stale spot."
              else
                "Market-implied forward HIGHER: check lower dividends / lower borrow-repo / stale options." ]
          ++ (match implied_net_carry example_inputs.spot
                (forward_from_put_call_parity example_inputs.strike c p
                  example_inputs.r example_inputs.T) example_inputs.r example_inputs.T with
              | some q =>
                if |(q - example_inputs.net_carry) * 10000| ≥ 50 then
                  [ "Dividends / repo-borrow (net carry mismatch)." ]
                else []
              | none => [ "Implied net carry not available (invalid inputs or F<=0)." ])
          ++ [ "Settlement & corporate actions (ex-div, specials, splits).",
               "Bid/ask consistency (mid vs executable, stale quotes)." ]) :=
  C3_hint_structure example_inputs (1 / 5) 5 50 6 validate_example

/-- C8: the Reporter with `top_hints = 2` renders, after the hint-independent
head lines, exactly a blank line, the "Next checks" header, the first two
hints of the list in their original order, and the closing separator; with an
empty hint list it renders the head and the closing separator only — the
"Next checks" block and its leading blank line are omitted entirely. -/
theorem C8_reporter_truncation (fmtF : ℝ → ℕ → String) (fmtS : ℝ → String)
    (rep : IPVReport) (h1 h2 h3 h4 h5 h6 : String)
    (hh : rep.root_cause_hints = [h1, h2, h3, h4, h5, h6]) :
    format_ipv_report_lines fmtF fmtS rep 2 =
      format_head fmtF fmtS rep ++
        [ "", "Next checks        :", "- " ++ h1, "- " ++ h2,
          "========================================" ] ∧
    format_ipv_report_lines fmtF fmtS { rep with root_cause_hints := [] } 2 =
      format_head fmtF fmtS rep ++ [ "========================================" ] := by
  constructor
  · unfold format_ipv_report_lines format_head
    rw [hh]
    norm_num [List.append_assoc]
    rw [if_neg (by simp)]
    norm_num [List.take]
  · unfold format_ipv_report_lines format_head
    norm_num [List.append_assoc]

/-- Instantiation of `C8_reporter_truncation` at a concrete six-hint FAIL
report and concrete formatters. -/
theorem C8_reporter_truncation_witness :
    format_ipv_report_lines sample_fmtF sample_fmtS sample_fail_report 2 =
      format_head sample_fmtF sample_fmtS sample_fail_report ++
        [ "", "Next checks        :", "- " ++ "h1", "- " ++ "h2",
          "========================================" ] ∧
    format_ipv_report_lines sample_fmtF sample_fmtS
        { sample_fail_report with root_cause_hints := [] } 2 =
      format_head sample_fmtF sample_fmtS sample_fail_report ++
        [ "========================================" ] :=
  C8_reporter_truncation sample_fmtF sample_fmtS sample_fail_report
    "h1" "h2" "h3" "h4" "h5" "h6" rfl

end

end EquityForwardIpv
